import Mathlib

/-!
Shallow embedding of the ledger engine of the `notion-finance` repository
(`src/notion_finance.py` and `src/finance_graphs.py`).

A pandas DataFrame row is modelled as a `Row`: the six transaction columns
(a `Txn`) plus the helper columns the code writes onto frames
(`amount_no_ahorros`, `tarjeta`, `efectivo`, `ahorros`, `general_category`,
`accumulated`, `amount_ahorros`), `none` while the column has not been
written.  A source function that writes columns onto the frame it was passed
(pandas assignment mutates the caller's frame in place) is modelled by
returning the new frame state alongside its value; a source function that
calls `.copy()` first leaves its argument untouched and is modelled as a
pure function of the ledger.  Amounts are `ℚ` (the floats are used as exact
decimals by every claim), timestamps are `Int` (naive datetimes are totally
ordered; only order and equality of dates matter to the logic).  Notion's
opaque `page_id` is read by no derivation logic and is omitted from the
model.
-/

/-- The six transaction columns built by `get_transactions`
(`notion_finance.py` lines 60-70, `finance_graphs.py` lines 64-73). -/
structure Txn where
  description : String
  category : String
  amount : ℚ
  account : String
  type : String
  date : Int
  deriving Repr, DecidableEq

/-- A DataFrame row: the transaction columns plus every helper column some
derivation writes, `none` until written. -/
structure Row where
  base : Txn
  amount_no_ahorros : Option ℚ
  tarjeta : Option ℚ
  efectivo : Option ℚ
  ahorros : Option ℚ
  general_category : Option String
  accumulated : Option ℚ
  amount_ahorros : Option ℚ
  deriving Repr, DecidableEq

/-- A freshly fetched row: no helper column has been written yet. -/
def Row.fresh (t : Txn) : Row :=
  ⟨t, none, none, none, none, none, none, none⟩

/-- The six original transaction columns of a frame (the view every
derivation's numbers are computed from). -/
def baseOf (l : List Row) : List Txn :=
  l.map Row.base

/-- Per-row value of the `amount_no_ahorros` column: `amount`, then zeroed
where `type == "Ahorros"` (`notion_finance.py` lines 93 and 98 / 129-130,
`finance_graphs.py` lines 101 and 107 / 133-135). -/
def mask_no_ahorros (t : Txn) : ℚ :=
  if t.type == "Ahorros" then 0 else t.amount

/-- Per-row value of the `amount_ahorros` column: `amount`, then zeroed
where `type != "Ahorros"` (`notion_finance.py` lines 179-180,
`finance_graphs.py` lines 164-166). -/
def mask_ahorros (t : Txn) : ℚ :=
  if t.type == "Ahorros" then t.amount else 0

/-- Running sum continuing from `acc`. -/
def cumsumFrom (acc : ℚ) : List ℚ → List ℚ
  | [] => []
  | x :: xs => (acc + x) :: cumsumFrom (acc + x) xs

/-- `Series.cumsum()`: entry `j` is the sum of the first `j+1` entries. -/
def cumsum (xs : List ℚ) : List ℚ :=
  cumsumFrom 0 xs

/-- The time-range filter (`notion_finance.py` lines 134-145 and 184-195):
keep `date >= start_date` for the month/week ranges, keep everything for
`"Todo"`.  The concrete start instants (`datetime.now()` minus a calendar
month resp. week) are parameters `month_start` / `week_start`. -/
def inWindow (time_range : String) (month_start week_start : Int) (d : Int) : Bool :=
  if time_range == "Último mes" then decide (month_start ≤ d)
  else if time_range == "Última semana" then decide (week_start ≤ d)
  else true

/-- `groupby(key)[amt].sum()` (`notion_finance.py` lines 236-241):
one `(key, sum of amt over the rows with that key)` pair per distinct key,
keys in first-appearance order (pandas emits them sorted; no claim depends
on group order, only on the multiset of groups reached by summation). -/
def groupbySum {α : Type} (key : α → String) (amt : α → ℚ) (l : List α) :
    List (String × ℚ) :=
  match l with
  | [] => []
  | r :: rs =>
    (key r, amt r + ((rs.filter fun x => key x == key r).map amt).sum)
      :: groupbySum key amt (rs.filter fun x => key x != key r)
termination_by l.length
decreasing_by
  simp only [List.length_cons, Nat.lt_succ_iff]
  exact List.length_filter_le _ _

/-- The merged dining categories (`notion_finance.py` line 13). -/
def COMER : List String :=
  ["uber eats", "comida", "monchis", "desayuno", "restaurante"]

/-- One raw Notion page's fields as consumed by `get_transactions`
(`notion_finance.py` lines 36-58, `finance_graphs.py` lines 39-62):
`amount` is the raw `number` property, `none` when absent —
`float(None)` raises. -/
structure RawRecord where
  title_items : List String
  category : Option String
  amount : Option ℚ
  account : Option String
  type : Option String
  created_time : Option Int
  deriving Repr, DecidableEq

/-- The default timestamp used when `created_time` is absent
(`datetime(2025, 1, 1)`, `notion_finance.py` line 53). -/
def default_date : Int := 0

/-- Normalization of one raw record (`notion_finance.py` lines 36-70,
`finance_graphs.py` lines 39-73).  `float(props["Amount"]["number"])` on a
missing/non-numeric number raises (`TypeError`/`ValueError`), modelled as
`Except.error "MalformedRecord"`; the optional select fields fall back to
the `"None"` sentinel and the missing date to `default_date`. -/
def normalize_record (p : RawRecord) : Except String Txn :=
  match p.amount with
  | none => Except.error "MalformedRecord"
  | some a =>
    Except.ok
      { description := String.join p.title_items
        category := p.category.getD "None"
        amount := a
        account := p.account.getD "None"
        type := p.type.getD "None"
        date := p.created_time.getD default_date }

/-- The row-building loop of `get_transactions` (`notion_finance.py`
lines 33-70): rows are appended in retrieval order; an exception while
normalizing any record aborts the whole loop — and hence the whole fetch —
with no row list produced. -/
def build_rows : List RawRecord → Except String (List Txn)
  | [] => Except.ok []
  | r :: rs =>
    match normalize_record r with
    | Except.error e => Except.error e
    | Except.ok t =>
      match build_rows rs with
      | Except.error e => Except.error e
      | Except.ok ts => Except.ok (t :: ts)

/-- `get_transactions` after the rows are built (`notion_finance.py`
lines 72-78, `finance_graphs.py` lines 75-88): sort ascending by date,
then negate `amount` where `type == "Expense"`.  pandas `sort_values`
defaults to `kind=quicksort`, which guarantees ascending order but not
stability; the model uses a merge sort, whose stability is a modelling
choice the source does not warrant (see the unresolved sort-stability
claim). -/
def get_transactions (records : List RawRecord) : Except String (List Txn) :=
  match build_rows records with
  | Except.error e => Except.error e
  | Except.ok rows =>
    Except.ok ((rows.mergeSort fun a b => decide (a.date ≤ b.date)).map fun t =>
      if t.type == "Expense" then { t with amount := -t.amount } else t)

/-- The four helper balance columns written in place by `get_current_money`
(`notion_finance.py` lines 93-101, `finance_graphs.py` lines 101-110):
each column is a copy of `amount`, then zeroed under its mask. -/
def set_helper_columns (l : List Row) : List Row :=
  l.map fun r =>
    { r with
      amount_no_ahorros := some (mask_no_ahorros r.base)
      tarjeta := some (if r.base.account == "Tarjeta" then r.base.amount else 0)
      efectivo := some (if r.base.account == "Efectivo" then r.base.amount else 0)
      ahorros := some (if r.base.account == "Ahorros" then r.base.amount else 0) }

/-- The claim language's "masked sum over `account == "Tarjeta"`". -/
def tarjetaSum (l : List Row) : ℚ :=
  (((baseOf l).filter fun t => t.account == "Tarjeta").map Txn.amount).sum

/-- The claim language's savings balance: the masked sum over
`account == "Ahorros"`. -/
def ahorrosAccountSum (l : List Row) : ℚ :=
  (((baseOf l).filter fun t => t.account == "Ahorros").map Txn.amount).sum

namespace notion_finance

/-- The four sums returned by `get_current_money` (`notion_finance.py`
lines 103-114): the column sums of the four helper columns, with
`current_ahorros` subtracted from `current_tarjeta` before returning
(line 107). -/
def get_current_money_values (ts : List Txn) : ℚ × ℚ × ℚ × ℚ :=
  let current_money := (ts.map mask_no_ahorros).sum
  let current_tarjeta :=
    (ts.map fun t => if t.account == "Tarjeta" then t.amount else 0).sum
  let current_efectivo :=
    (ts.map fun t => if t.account == "Efectivo" then t.amount else 0).sum
  let current_ahorros :=
    (ts.map fun t => if t.account == "Ahorros" then t.amount else 0).sum
  (current_money, current_tarjeta - current_ahorros, current_efectivo,
    current_ahorros)

/-- `get_current_money` (`notion_finance.py` lines 81-114).  The function
writes the four helper columns onto the frame it was passed (no `.copy()`),
so the second component is the caller's frame after the call. -/
def get_current_money (l : List Row) : (ℚ × ℚ × ℚ × ℚ) × List Row :=
  (get_current_money_values (baseOf l), set_helper_columns l)

/-- The point series of `plot_total_money` (`notion_finance.py`
lines 128-158): mask out `Ahorros`-type rows, cumulative-sum the masked
amounts over the full ledger, drop the rows whose masked amount is zero,
then apply the time window; each kept row contributes
`(date, accumulated)`. -/
def total_series (ts : List Txn) (time_range : String) (month_start week_start : Int) :
    List (Int × ℚ) :=
  let pts := ts.zip (cumsum (ts.map mask_no_ahorros))
  let pts := pts.filter fun p => decide (mask_no_ahorros p.1 ≠ 0)
  let pts := pts.filter fun p => inWindow time_range month_start week_start p.1.date
  pts.map fun p => (p.1.date, p.2)

/-- `plot_total_money` (`notion_finance.py` lines 117-164).  Line 128 takes
a `.copy()`, so the input frame is untouched and the function is pure. -/
def plot_total_money (l : List Row) (time_range : String) (month_start week_start : Int) :
    List (Int × ℚ) :=
  total_series (baseOf l) time_range month_start week_start

/-- The point series of `plot_ahorros` (`notion_finance.py`
lines 178-208): mask out non-`Ahorros`-type rows, drop the rows whose
masked amount is zero, cumulative-sum over the remaining rows, then apply
the time window. -/
def ahorros_series (ts : List Txn) (time_range : String) (month_start week_start : Int) :
    List (Int × ℚ) :=
  let kept := ts.filter fun t => decide (mask_ahorros t ≠ 0)
  let pts := kept.zip (cumsum (kept.map mask_ahorros))
  let pts := pts.filter fun p => inWindow time_range month_start week_start p.1.date
  pts.map fun p => (p.1.date, p.2)

/-- `plot_ahorros` (`notion_finance.py` lines 167-214).  Line 178 takes a
`.copy()`, so the input frame is untouched and the function is pure. -/
def plot_ahorros (l : List Row) (time_range : String) (month_start week_start : Int) :
    List (Int × ℚ) :=
  ahorros_series (baseOf l) time_range month_start week_start

/-- The `general_category` column value (`notion_finance.py`
lines 233-234): the category, relabelled `"Comer"` when it is in the
`COMER` merge set. -/
def general_category (t : Txn) : String :=
  if COMER.contains t.category then "Comer" else t.category

/-- The in-place write of the `general_category` column onto the input
frame (`notion_finance.py` lines 233-234; no `.copy()` is taken). -/
def set_general_category (l : List Row) : List Row :=
  l.map fun r => { r with general_category := some (general_category r.base) }

/-- The pre-filter groups of `plot_category_pie` (`notion_finance.py`
lines 236-241): the direction-filtered rows grouped by `general_category`,
amounts summed per group. -/
def category_groups (ts : List Txn) (transaction_type : String) :
    List (String × ℚ) :=
  groupbySum general_category Txn.amount
    (ts.filter fun t => t.type == transaction_type)

/-- The numeric outputs of `plot_category_pie` (`notion_finance.py`
lines 228-246): the grand total `total_expenses` is the absolute value of
the direction-filtered pre-grouping sum (line 228); groups are then
sign-filtered (keep `> 0` for `"Income"`, `< 0` otherwise) and, on the
expense branch, replaced by their absolute values (lines 242-246).  The
display-label formatting of lines 247-252 carries no further numbers and
is not modelled. -/
def category_pie_values (ts : List Txn) (transaction_type : String) :
    ℚ × List (String × ℚ) :=
  let total_expenses :=
    |((ts.filter fun t => t.type == transaction_type).map Txn.amount).sum|
  let category_expenses := category_groups ts transaction_type
  let category_expenses :=
    if transaction_type == "Income" then
      category_expenses.filter fun g => decide (0 < g.2)
    else
      (category_expenses.filter fun g => decide (g.2 < 0)).map fun g => (g.1, |g.2|)
  (total_expenses, category_expenses)

/-- `plot_category_pie` (`notion_finance.py` lines 217-269).  The
`general_category` write of lines 233-234 lands on the caller's frame, so
the second component is the caller's frame after the call. -/
def plot_category_pie (l : List Row) (transaction_type : String) :
    (ℚ × List (String × ℚ)) × List Row :=
  (category_pie_values (baseOf l) transaction_type, set_general_category l)

/-- `items_per_page` of `list_transactions` (`notion_finance.py` line 475). -/
def items_per_page : Int := 20

/-- `total_pages` of `list_transactions` (`notion_finance.py` line 477):
`(total_items - 1) // items_per_page + 1`, Python `//` being floor
division. -/
def total_pages (total_items : Nat) : Int :=
  ((total_items : Int) - 1).fdiv items_per_page + 1

/-- The input frame as `list_transactions` leaves it (`notion_finance.py`
line 469 takes a `.copy()` before the date reformatting and reversal, so
the caller's frame is unchanged). -/
def list_transactions_effect (l : List Row) : List Row := l

end notion_finance

namespace finance_graphs

/-- The four sums returned by `finance_graphs.py`'s `get_current_money`
(lines 112-117): same column sums as the later revision, but `ahorros` is
NOT subtracted from `tarjeta` before returning. -/
def get_current_money_values (ts : List Txn) : ℚ × ℚ × ℚ × ℚ :=
  let current_money := (ts.map mask_no_ahorros).sum
  let current_tarjeta :=
    (ts.map fun t => if t.account == "Tarjeta" then t.amount else 0).sum
  let current_efectivo :=
    (ts.map fun t => if t.account == "Efectivo" then t.amount else 0).sum
  let current_ahorros :=
    (ts.map fun t => if t.account == "Ahorros" then t.amount else 0).sum
  (current_money, current_tarjeta, current_efectivo, current_ahorros)

/-- `get_current_money` (`finance_graphs.py` lines 91-117): writes the four
helper columns onto the caller's frame (no `.copy()`), second component is
the frame after the call. -/
def get_current_money (l : List Row) : (ℚ × ℚ × ℚ × ℚ) × List Row :=
  (get_current_money_values (baseOf l), set_helper_columns l)

/-- The plotted points of `finance_graphs.py`'s `plot_total_money`
(lines 133-141): cumulative sums of the masked amounts over every row —
no zero-row drop and no time window in this revision. -/
def total_points (ts : List Txn) : List (Int × ℚ) :=
  (ts.zip (cumsum (ts.map mask_no_ahorros))).map fun p => (p.1.date, p.2)

/-- The frame state after `finance_graphs.py`'s `plot_total_money`
(lines 133-137): `amount_no_ahorros` and `accumulated` written onto the
caller's frame. -/
def plot_total_money_effect (l : List Row) : List Row :=
  let t := l.map fun r => { r with amount_no_ahorros := some (mask_no_ahorros r.base) }
  (t.zip (cumsum (t.map fun r => r.amount_no_ahorros.getD 0))).map fun p =>
    { p.1 with accumulated := some p.2 }

/-- `plot_total_money` (`finance_graphs.py` lines 120-148): no `.copy()`,
so the value comes with the mutated frame. -/
def plot_total_money (l : List Row) : List (Int × ℚ) × List Row :=
  (total_points (baseOf l), plot_total_money_effect l)

/-- The plotted points of `finance_graphs.py`'s `plot_ahorros`
(lines 164-179): mask, drop the zero-masked rows, cumulative-sum the rest;
no time window in this revision. -/
def ahorros_points (ts : List Txn) : List (Int × ℚ) :=
  let kept := ts.filter fun t => decide (mask_ahorros t ≠ 0)
  (kept.zip (cumsum (kept.map mask_ahorros))).map fun p => (p.1.date, p.2)

/-- The frame state after `finance_graphs.py`'s `plot_ahorros`: line 164
writes `amount_ahorros` onto the caller's frame; line 169 rebinds the local
name to a filtered slice, so the `accumulated_ahorros` write of line 171
lands on that slice, not on the caller's frame. -/
def plot_ahorros_effect (l : List Row) : List Row :=
  l.map fun r => { r with amount_ahorros := some (mask_ahorros r.base) }

/-- `plot_ahorros` (`finance_graphs.py` lines 151-185): no `.copy()`, so
the value comes with the mutated frame. -/
def plot_ahorros (l : List Row) : List (Int × ℚ) × List Row :=
  (ahorros_points (baseOf l), plot_ahorros_effect l)

end finance_graphs

section concrete_inputs

/-- A savings-account deposit: the input separating the two revisions'
card balances. -/
def savingsTxn : Txn :=
  { description := "deposit", category := "None", amount := 10,
    account := "Ahorros", type := "Income", date := 0 }

def savingsLedger : List Row := [Row.fresh savingsTxn]

/-- A savings-type row: zero contribution to the total track. -/
def ahorrosTypeTxn : Txn :=
  { description := "to savings", category := "None", amount := 5,
    account := "Tarjeta", type := "Ahorros", date := 0 }

def ahorrosTypeLedger : List Row := [Row.fresh ahorrosTypeTxn]

/-- An old transaction, outside a window starting at instant 5. -/
def earlyTxn : Txn :=
  { description := "early", category := "None", amount := 3,
    account := "Tarjeta", type := "Income", date := 0 }

/-- A recent transaction, inside a window starting at instant 5. -/
def lateTxn : Txn :=
  { description := "late", category := "None", amount := 4,
    account := "Tarjeta", type := "Income", date := 10 }

def twoTxnLedger : List Row := [Row.fresh earlyTxn, Row.fresh lateTxn]

/-- A normalized dining expense (amount already sign-flipped). -/
def expenseTxn : Txn :=
  { description := "lunch", category := "comida", amount := -5,
    account := "Tarjeta", type := "Expense", date := 0 }

def expenseLedger : List Row := [Row.fresh expenseTxn]

/-- A raw record whose `Amount` property is absent. -/
def malformedRecords : List RawRecord :=
  [{ title_items := ["broken"], category := none, amount := none,
     account := none, type := none, created_time := none }]

/-- The savings ledger with a stale helper column written onto its row:
same six transaction columns as `savingsLedger`, different frame value. -/
def savingsLedgerStale : List Row :=
  [{ Row.fresh savingsTxn with amount_no_ahorros := some 99 }]

end concrete_inputs

section helper_lemmas

/-- A zero-padded (`.loc`-masked) column sum equals the sum of `amount`
over the filtered rows. -/
theorem sum_ite_eq_sum_filter (p : Txn → Bool) (ts : List Txn) :
    (ts.map fun t => if p t then t.amount else 0).sum
      = ((ts.filter p).map Txn.amount).sum := by
  induction ts with
  | nil => simp
  | cons t ts ih =>
    by_cases h : p t <;> simp [List.filter_cons, h, ih]

/-- Splitting the `amount_no_ahorros` mask back into the raw sum. -/
theorem sum_mask_no_ahorros_add_ahorros (ts : List Txn) :
    (ts.map mask_no_ahorros).sum
        + ((ts.filter fun t => t.type == "Ahorros").map Txn.amount).sum
      = (ts.map Txn.amount).sum := by
  induction ts with
  | nil => simp
  | cons t ts ih =>
    by_cases h : t.type == "Ahorros" <;>
      simp [List.filter_cons, h, mask_no_ahorros] <;> linarith [ih]

/-- Both revisions' `tarjeta` column sum, in filter form. -/
theorem tarjeta_column_sum (l : List Row) :
    ((baseOf l).map fun t => if t.account == "Tarjeta" then t.amount else 0).sum
      = tarjetaSum l :=
  sum_ite_eq_sum_filter _ _

/-- Both revisions' `ahorros` column sum, in filter form. -/
theorem ahorros_column_sum (l : List Row) :
    ((baseOf l).map fun t => if t.account == "Ahorros" then t.amount else 0).sum
      = ahorrosAccountSum l :=
  sum_ite_eq_sum_filter _ _

/-- Writing the four balance helper columns does not change the six
transaction columns. -/
theorem baseOf_set_helper_columns (l : List Row) :
    baseOf (set_helper_columns l) = baseOf l := by
  simp only [baseOf, set_helper_columns, List.map_map]
  rfl

/-- Writing the `general_category` column does not change the six
transaction columns. -/
theorem baseOf_set_general_category (l : List Row) :
    baseOf (notion_finance.set_general_category l) = baseOf l := by
  simp only [baseOf, notion_finance.set_general_category, List.map_map]
  rfl

theorem cumsumFrom_length (acc : ℚ) :
    ∀ xs : List ℚ, (cumsumFrom acc xs).length = xs.length
  | [] => rfl
  | x :: xs => by simp [cumsumFrom, cumsumFrom_length (acc + x) xs]

theorem cumsum_length (xs : List ℚ) : (cumsum xs).length = xs.length :=
  cumsumFrom_length 0 xs

/-- Writing a rational column onto the rows of a zip leaves the six
transaction columns of the left factor. -/
theorem map_base_zip_update (t : List Row) (c : List ℚ) (h : t.length ≤ c.length) :
    (((t.zip c).map fun p => { p.1 with accumulated := some p.2 }).map Row.base)
      = t.map Row.base := by
  rw [List.map_map]
  have hc : (Row.base ∘ fun p : Row × ℚ => { p.1 with accumulated := some p.2 })
      = Row.base ∘ Prod.fst := rfl
  rw [hc, ← List.map_map, List.map_fst_zip t c h]

/-- `finance_graphs.plot_total_money` rewrites helper columns in place but
not the six transaction columns. -/
theorem baseOf_fg_total_effect (l : List Row) :
    baseOf (finance_graphs.plot_total_money_effect l) = baseOf l := by
  unfold baseOf finance_graphs.plot_total_money_effect
  rw [map_base_zip_update _ _ (by rw [cumsum_length]; simp)]
  simp only [List.map_map]
  rfl

/-- `finance_graphs.plot_ahorros` rewrites a helper column in place but not
the six transaction columns. -/
theorem baseOf_fg_ahorros_effect (l : List Row) :
    baseOf (finance_graphs.plot_ahorros_effect l) = baseOf l := by
  simp only [baseOf, finance_graphs.plot_ahorros_effect, List.map_map]
  rfl

end helper_lemmas


/-- C1: in `notion_finance.py` the card balance is the `Tarjeta` masked sum
minus the `Ahorros`-account masked sum, but `finance_graphs.py` returns the
`Tarjeta` masked sum alone — on a ledger with a savings-account deposit the
two disagree, so "card is never returned as the independent Tarjeta masked
sum alone" is false of the code. -/
theorem c1_card_not_minus_savings_in_finance_graphs :
    ¬ ((finance_graphs.get_current_money savingsLedger).1.2.1
        = tarjetaSum savingsLedger - ahorrosAccountSum savingsLedger) := by
  simp +decide [finance_graphs.get_current_money, finance_graphs.get_current_money_values,
    savingsLedger, savingsTxn, baseOf, Row.fresh, tarjetaSum, ahorrosAccountSum,
    List.filter_cons]

/-- C1 (amended): `notion_finance.py`'s `get_current_money` returns
`card = rawCard − savings` for every ledger, while `finance_graphs.py`'s
returns the independent `Tarjeta` masked sum with no deduction. -/
theorem c1_card_balances (l : List Row) :
    (notion_finance.get_current_money l).1.2.1
        = tarjetaSum l - ahorrosAccountSum l
    ∧ (finance_graphs.get_current_money l).1.2.1 = tarjetaSum l := by
  constructor
  · show ((baseOf l).map fun t => if t.account == "Tarjeta" then t.amount else 0).sum
        - ((baseOf l).map fun t => if t.account == "Ahorros" then t.amount else 0).sum
      = tarjetaSum l - ahorrosAccountSum l
    rw [tarjeta_column_sum, ahorros_column_sum]
  · show ((baseOf l).map fun t => if t.account == "Tarjeta" then t.amount else 0).sum
      = tarjetaSum l
    rw [tarjeta_column_sum]

/-- C2: on an empty ledger `list_transactions` computes
`(0 - 1) // 20 + 1 = 0` total pages, not the minimum of 1 the spec
requires (the page widget is then created with `max_value = 0` below its
`min_value = 1`). -/
theorem c2_total_pages_empty_ledger_zero :
    notion_finance.total_pages 0 = 0 := by
  decide

/-- C4: `get_current_money` writes four helper columns onto the frame it
was passed, so after the call the input ledger value differs from what it
was before — the derivations do not all take immutable snapshots. -/
theorem c4_get_current_money_mutates_input :
    (notion_finance.get_current_money savingsLedger).2 ≠ savingsLedger := by
  decide

/-- C4 (amended): `plot_total_money`, `plot_ahorros` and
`list_transactions` in `notion_finance.py` copy first and leave the ledger
unchanged; `get_current_money` and `plot_category_pie` there, and
`get_current_money`, `plot_total_money` and `plot_ahorros` in
`finance_graphs.py`, write helper columns onto the input in place — but
every in-place writer leaves the six original transaction columns of every
row unchanged. -/
theorem c4_base_columns_preserved (l : List Row) (d : String) :
    notion_finance.list_transactions_effect l = l
    ∧ baseOf (notion_finance.get_current_money l).2 = baseOf l
    ∧ baseOf (notion_finance.plot_category_pie l d).2 = baseOf l
    ∧ baseOf (finance_graphs.get_current_money l).2 = baseOf l
    ∧ baseOf (finance_graphs.plot_total_money l).2 = baseOf l
    ∧ baseOf (finance_graphs.plot_ahorros l).2 = baseOf l :=
  ⟨rfl, baseOf_set_helper_columns l, baseOf_set_general_category l,
    baseOf_set_helper_columns l, baseOf_fg_total_effect l,
    baseOf_fg_ahorros_effect l⟩

/-- C6: the total balance (sum over `type != "Ahorros"`) plus the sum over
`type == "Ahorros"` rows equals the sum of all normalized amounts. -/
theorem c6_total_plus_savings_type_sum (l : List Row) :
    (notion_finance.get_current_money l).1.1
        + (((baseOf l).filter fun t => t.type == "Ahorros").map Txn.amount).sum
      = ((baseOf l).map Txn.amount).sum :=
  sum_mask_no_ahorros_add_ahorros (baseOf l)


section series_lemmas

/-- Walking a ledger filtered by `q` zipped against the running sums of its
`f`-column, starting from `acc`: every point is a surviving row paired with
`acc` plus the `f`-sum of the FULL unfiltered prefix ending at that row
(the filter only ever removes rows with `f t = 0`, which contribute
nothing). -/
theorem mem_zip_cumsumFrom (f : Txn → ℚ) (q : Txn → Bool)
    (hq : ∀ t, q t = false → f t = 0) :
    ∀ (ts : List Txn) (acc : ℚ) (p : Txn × ℚ),
      p ∈ (ts.filter q).zip (cumsumFrom acc ((ts.filter q).map f)) →
      ∃ i : Fin ts.length,
        p.1 = ts.get i ∧ p.2 = acc + ((ts.take (i.1 + 1)).map f).sum
  | [], acc, p, hp => by simp at hp
  | t :: ts, acc, p, hp => by
    cases hqt : q t with
    | true =>
      rw [List.filter_cons_of_pos hqt] at hp
      simp only [List.map_cons, cumsumFrom, List.zip_cons_cons, List.mem_cons] at hp
      rcases hp with hp | hp
      · refine ⟨⟨0, by simp⟩, ?_, ?_⟩
        · rw [hp]
          rfl
        · rw [hp]
          show acc + f t = acc + (f t + ((ts.take 0).map f).sum)
          simp
      · obtain ⟨i, h1, h2⟩ := mem_zip_cumsumFrom f q hq ts (acc + f t) p hp
        refine ⟨⟨i.1 + 1, Nat.succ_lt_succ i.isLt⟩, ?_, ?_⟩
        · rw [h1]
          rfl
        · show p.2 = acc + (f t + ((ts.take (i.1 + 1)).map f).sum)
          rw [h2]
          ring
    | false =>
      rw [List.filter_cons_of_neg (by simp [hqt])] at hp
      obtain ⟨i, h1, h2⟩ := mem_zip_cumsumFrom f q hq ts acc p hp
      refine ⟨⟨i.1 + 1, Nat.succ_lt_succ i.isLt⟩, ?_, ?_⟩
      · rw [h1]
        rfl
      · show p.2 = acc + (f t + ((ts.take (i.1 + 1)).map f).sum)
        rw [h2, hq t hqt, zero_add]

/-- Unfiltered special case: each zipped point carries the `f`-prefix sum of
the full ledger. -/
theorem mem_zip_cumsum (f : Txn → ℚ) (ts : List Txn) (p : Txn × ℚ)
    (hp : p ∈ ts.zip (cumsum (ts.map f))) :
    ∃ i : Fin ts.length,
      p.1 = ts.get i ∧ p.2 = ((ts.take (i.1 + 1)).map f).sum := by
  have hp2 : p ∈ (ts.filter fun t => true).zip
      (cumsumFrom 0 ((ts.filter fun t => true).map f)) := by
    rw [List.filter_true]
    exact hp
  obtain ⟨i, h1, h2⟩ := mem_zip_cumsumFrom f (fun t => true)
    (fun t ht => by simp at ht) ts 0 p hp2
  exact ⟨i, h1, by rw [h2, zero_add]⟩

/-- Zero-filtered special case: filtering the zero-`f` rows BEFORE the
running sum still leaves each point carrying the `f`-prefix sum of the full
ledger. -/
theorem mem_kept_zip_cumsum (f : Txn → ℚ) (ts : List Txn) (p : Txn × ℚ)
    (hp : p ∈ (ts.filter fun t => decide (f t ≠ 0)).zip
        (cumsum ((ts.filter fun t => decide (f t ≠ 0)).map f))) :
    ∃ i : Fin ts.length,
      p.1 = ts.get i ∧ p.2 = ((ts.take (i.1 + 1)).map f).sum := by
  obtain ⟨i, h1, h2⟩ := mem_zip_cumsumFrom f (fun t => decide (f t ≠ 0))
    (fun t ht => by simpa using ht) ts 0 p hp
  exact ⟨i, h1, by rw [h2, zero_add]⟩

end series_lemmas

/-- Every point of the total-track series carries the masked running sum of
the FULL unwindowed ledger prefix ending at its row, and lies inside the
window. -/
theorem total_series_point (ts : List Txn) (tr : String) (ms ws : Int)
    (p : Int × ℚ) (hp : p ∈ notion_finance.total_series ts tr ms ws) :
    ∃ i : Fin ts.length,
      p.1 = (ts.get i).date
      ∧ p.2 = ((ts.take (i.1 + 1)).map mask_no_ahorros).sum
      ∧ inWindow tr ms ws p.1 = true := by
  unfold notion_finance.total_series at hp
  obtain ⟨x, hx, hxp⟩ := List.mem_map.mp hp
  obtain ⟨hx1, hwin⟩ := List.mem_filter.mp hx
  obtain ⟨hx2, _⟩ := List.mem_filter.mp hx1
  obtain ⟨i, h1, h2⟩ := mem_zip_cumsum mask_no_ahorros ts x hx2
  subst hxp
  exact ⟨i, by rw [h1], by rw [h2], hwin⟩

/-- Every point of the savings-track series carries the masked running sum
of the FULL unwindowed ledger prefix ending at its row (the rows dropped
before the running sum had zero masked amount), and lies inside the
window. -/
theorem ahorros_series_point (ts : List Txn) (tr : String) (ms ws : Int)
    (p : Int × ℚ) (hp : p ∈ notion_finance.ahorros_series ts tr ms ws) :
    ∃ i : Fin ts.length,
      p.1 = (ts.get i).date
      ∧ p.2 = ((ts.take (i.1 + 1)).map mask_ahorros).sum
      ∧ inWindow tr ms ws p.1 = true := by
  unfold notion_finance.ahorros_series at hp
  obtain ⟨x, hx, hxp⟩ := List.mem_map.mp hp
  obtain ⟨hx2, hwin⟩ := List.mem_filter.mp hx
  obtain ⟨i, h1, h2⟩ := mem_kept_zip_cumsum mask_ahorros ts x hx2
  subst hxp
  exact ⟨i, by rw [h1], by rw [h2], hwin⟩

/-- C7: for every ledger and every time window, both series builders
compute the running cumulative sum over the full unwindowed masked
time-ordered ledger first and window afterwards: each retained point's
value is the masked-amount sum of the ENTIRE ledger prefix up to its row,
including transactions dated before the window start. -/
theorem c7_cumsum_before_windowing (l : List Row) (tr : String) (ms ws : Int) :
    (∀ p ∈ notion_finance.plot_total_money l tr ms ws,
      ∃ i : Fin (baseOf l).length,
        p.1 = ((baseOf l).get i).date
        ∧ p.2 = (((baseOf l).take (i.1 + 1)).map mask_no_ahorros).sum
        ∧ inWindow tr ms ws p.1 = true)
    ∧ (∀ p ∈ notion_finance.plot_ahorros l tr ms ws,
      ∃ i : Fin (baseOf l).length,
        p.1 = ((baseOf l).get i).date
        ∧ p.2 = (((baseOf l).take (i.1 + 1)).map mask_ahorros).sum
        ∧ inWindow tr ms ws p.1 = true) :=
  ⟨fun p hp => total_series_point (baseOf l) tr ms ws p hp,
   fun p hp => ahorros_series_point (baseOf l) tr ms ws p hp⟩

section zero_row_lemmas

theorem map_fst_filter_zip_date (q : Txn → Bool) :
    ∀ (ts : List Txn) (c : List ℚ), ts.length ≤ c.length →
      ((((ts.zip c).filter fun p => q p.1).map fun p => (p.1.date, p.2)).map
          Prod.fst)
        = (ts.filter q).map Txn.date
  | [], c, h => by simp
  | t :: ts, [], h => by simp at h
  | t :: ts, x :: c, h => by
    have ih := map_fst_filter_zip_date q ts c (by simpa using h)
    by_cases hq : q t <;>
      simp [List.zip_cons_cons, List.filter_cons, hq, ih]

theorem map_date_zip :
    ∀ (ts : List Txn) (c : List ℚ), ts.length ≤ c.length →
      (((ts.zip c).map fun p => (p.1.date, p.2)).map Prod.fst) = ts.map Txn.date
  | [], c, h => by simp
  | t :: ts, [], h => by simp at h
  | t :: ts, x :: c, h => by
    have ih := map_date_zip ts c (by simpa using h)
    simp [List.zip_cons_cons, ih]

end zero_row_lemmas

/-- C3: a ledger whose only row is of type `"Ahorros"` has a nonempty
masked ledger, yet `plot_total_money` produces an empty series — the total
track does NOT retain rows whose masked contribution is zero (line 132
drops them). -/
theorem c3_total_track_drops_zero_row :
    notion_finance.plot_total_money ahorrosTypeLedger "Todo" 0 0 = []
    ∧ ahorrosTypeLedger ≠ [] := by
  constructor
  · norm_num [notion_finance.plot_total_money, notion_finance.total_series,
      ahorrosTypeLedger, ahorrosTypeTxn, baseOf, Row.fresh, mask_no_ahorros,
      cumsum, cumsumFrom, List.filter_cons]
  · simp [ahorrosTypeLedger]

/-- C3 (amended): BOTH tracks drop the rows whose masked amount is exactly
zero: with no time window, the dates of the series points are exactly the
dates of the nonzero-masked rows, for the total track (which drops them
after the cumulative sum) just as for the savings track (which drops them
before). -/
theorem c3_zero_rows_dropped_both_tracks (l : List Row) (ms ws : Int) :
    (notion_finance.plot_total_money l "Todo" ms ws).map Prod.fst
        = ((baseOf l).filter fun t => decide (mask_no_ahorros t ≠ 0)).map Txn.date
    ∧ (notion_finance.plot_ahorros l "Todo" ms ws).map Prod.fst
        = ((baseOf l).filter fun t => decide (mask_ahorros t ≠ 0)).map Txn.date := by
  constructor
  · simp only [notion_finance.plot_total_money, notion_finance.total_series]
    rw [show (fun p : Txn × ℚ => inWindow "Todo" ms ws p.1.date)
        = fun p => true from rfl]
    rw [List.filter_true]
    exact map_fst_filter_zip_date (fun t => decide (mask_no_ahorros t ≠ 0))
      (baseOf l) (cumsum ((baseOf l).map mask_no_ahorros))
      (by rw [cumsum_length, List.length_map])
  · simp only [notion_finance.plot_ahorros, notion_finance.ahorros_series]
    rw [show (fun p : Txn × ℚ => inWindow "Todo" ms ws p.1.date)
        = fun p => true from rfl]
    rw [List.filter_true]
    exact map_date_zip _ _ (by rw [cumsum_length, List.length_map])

section pie_lemmas

/-- The sum over a list splits into the sums over a filter and its
complement. -/
theorem sum_map_filter_not {α : Type} (p : α → Bool) (f : α → ℚ) (l : List α) :
    ((l.filter p).map f).sum + ((l.filter fun a => !(p a)).map f).sum
      = (l.map f).sum := by
  induction l with
  | nil => simp
  | cons a l ih =>
    by_cases h : p a <;> simp [List.filter_cons, h] <;> linarith [ih]

/-- The group sums of `groupbySum` partition the rows: their total is the
plain sum of the summed column. -/
theorem groupbySum_sum {α : Type} (key : α → String) (amt : α → ℚ) :
    ∀ (n : Nat) (l : List α), l.length ≤ n →
      ((groupbySum key amt l).map Prod.snd).sum = (l.map amt).sum
  | 0, [], _ => by simp [groupbySum]
  | 0, a :: l, h => by simp at h
  | n + 1, [], _ => by simp [groupbySum]
  | n + 1, r :: rs, h => by
    have hlen : (rs.filter fun x => key x != key r).length ≤ n := by
      have h1 := List.length_filter_le (fun x => key x != key r) rs
      simp only [List.length_cons, Nat.succ_le_succ_iff] at h
      omega
    have ih := groupbySum_sum key amt n (rs.filter fun x => key x != key r) hlen
    simp only [groupbySum, List.map_cons, List.sum_cons]
    rw [ih]
    have hbne : (fun x => key x != key r) = fun a => !(key a == key r) := rfl
    rw [hbne]
    have hsplit := sum_map_filter_not (fun x => key x == key r) amt rs
    linarith

theorem groupbySum_sum_eq {α : Type} (key : α → String) (amt : α → ℚ)
    (l : List α) :
    ((groupbySum key amt l).map Prod.snd).sum = (l.map amt).sum :=
  groupbySum_sum key amt l.length l le_rfl

theorem sum_nonpos_of_all (xs : List ℚ) (h : ∀ x ∈ xs, x ≤ 0) : xs.sum ≤ 0 := by
  induction xs with
  | nil => simp
  | cons a xs ih =>
    have ha := h a (by simp)
    have hs := ih fun x hx => h x (by simp [hx])
    simp only [List.sum_cons]
    linarith

/-- For a list of strictly negative rationals, summing the absolute values
gives the absolute value of the sum. -/
theorem sum_abs_of_all_neg (xs : List ℚ) (h : ∀ x ∈ xs, x < 0) :
    (xs.map fun x => |x|).sum = |xs.sum| := by
  induction xs with
  | nil => simp
  | cons a xs ih =>
    have ha : a < 0 := h a (by simp)
    have hs : xs.sum ≤ 0 := sum_nonpos_of_all xs fun x hx => le_of_lt (h x (by simp [hx]))
    have ih2 := ih fun x hx => h x (by simp [hx])
    simp only [List.map_cons, List.sum_cons]
    rw [ih2, abs_of_nonpos hs, abs_of_nonpos (by linarith : a + xs.sum ≤ 0),
      abs_of_nonpos (le_of_lt ha)]
    ring

end pie_lemmas

/-- C8: when every group's net sum sign-matches the direction (so the
sign filter of step 4 keeps every group), the sum of the per-group output
amounts of `plot_category_pie` equals its grand total, the absolute value
of the direction-filtered pre-grouping sum. -/
theorem c8_group_sums_match_grand_total (l : List Row) (transaction_type : String)
    (hs : ∀ g ∈ notion_finance.category_groups (baseOf l) transaction_type,
        if transaction_type == "Income" then 0 < g.2 else g.2 < 0) :
    (((notion_finance.plot_category_pie l transaction_type).1.2).map Prod.snd).sum
      = (notion_finance.plot_category_pie l transaction_type).1.1 := by
  have hpart := groupbySum_sum_eq notion_finance.general_category Txn.amount
    ((baseOf l).filter fun t => t.type == transaction_type)
  by_cases hI : transaction_type == "Income"
  · simp only [hI, if_true] at hs
    simp only [notion_finance.plot_category_pie, notion_finance.category_pie_values,
      hI, if_true]
    rw [List.filter_eq_self.mpr fun g hg => by simpa using hs g hg]
    show ((notion_finance.category_groups (baseOf l) transaction_type).map
        Prod.snd).sum = _
    rw [show notion_finance.category_groups (baseOf l) transaction_type
        = groupbySum notion_finance.general_category Txn.amount
            ((baseOf l).filter fun t => t.type == transaction_type) from rfl] at hs ⊢
    rw [hpart]
    rw [abs_of_nonneg]
    rw [← hpart]
    exact List.sum_nonneg fun x hx => by
      obtain ⟨g, hg, rfl⟩ := List.mem_map.mp hx
      exact le_of_lt (hs g hg)
  · simp only [hI, if_false, Bool.false_eq_true] at hs
    simp only [notion_finance.plot_category_pie, notion_finance.category_pie_values,
      hI, Bool.false_eq_true, if_false]
    rw [List.filter_eq_self.mpr fun g hg => by simpa using hs g hg]
    rw [List.map_map]
    show ((notion_finance.category_groups (baseOf l) transaction_type).map
        fun g => |g.2|).sum = _
    have habs : ((notion_finance.category_groups (baseOf l) transaction_type).map
          fun g => |g.2|).sum
        = |((notion_finance.category_groups (baseOf l) transaction_type).map
            Prod.snd).sum| := by
      have h2 := sum_abs_of_all_neg
        ((notion_finance.category_groups (baseOf l) transaction_type).map Prod.snd)
        (fun x hx => by
          obtain ⟨g, hg, rfl⟩ := List.mem_map.mp hx
          exact hs g hg)
      rw [← h2, List.map_map]
      rfl
    rw [habs]
    rw [show notion_finance.category_groups (baseOf l) transaction_type
        = groupbySum notion_finance.general_category Txn.amount
            ((baseOf l).filter fun t => t.type == transaction_type) from rfl]
    rw [hpart]

/-- A malformed record anywhere in the list aborts the row-building loop
with the malformed-record failure. -/
theorem build_rows_error :
    ∀ records : List RawRecord, (∃ r ∈ records, r.amount = none) →
      build_rows records = Except.error "MalformedRecord"
  | [], h => by simp at h
  | r :: rs, h => by
    cases ha : r.amount with
    | none => simp [build_rows, normalize_record, ha]
    | some a =>
      obtain ⟨x, hx, hxa⟩ := h
      rcases List.mem_cons.mp hx with rfl | hxs
      · rw [ha] at hxa
        exact absurd hxa (by simp)
      · have ih := build_rows_error rs ⟨x, hxs, hxa⟩
        simp [build_rows, normalize_record, ha, ih]

/-- C9: if any raw record's amount is absent, the whole fetch fails with
the malformed-record error — no ledger is returned at all, so in
particular none in which the record was skipped or zero-filled. -/
theorem c9_malformed_amount_fails_fetch (records : List RawRecord)
    (h : ∃ r ∈ records, r.amount = none) :
    get_transactions records = Except.error "MalformedRecord" := by
  simp [get_transactions, build_rows_error records h]

/-- C9 witness: a singleton fetch whose record lacks the amount. -/
theorem c9_malformed_amount_fails_fetch_witness :
    (∃ r ∈ malformedRecords, r.amount = none)
    ∧ get_transactions malformedRecords = Except.error "MalformedRecord" := by
  have h : ∃ r ∈ malformedRecords, r.amount = none := by decide
  exact ⟨h, c9_malformed_amount_fails_fetch malformedRecords h⟩

/-- C10: every embedded derivation leaves the six original transaction
columns of its input unchanged, and its numeric output depends only on
those columns — so outputs are unaffected by which other derivations ran
on the frame beforehand, in any order. -/
theorem c10_derivations_base_determined (l l₁ l₂ : List Row)
    (d tr : String) (ms ws : Int) (h : baseOf l₁ = baseOf l₂) :
    (baseOf (notion_finance.get_current_money l).2 = baseOf l
      ∧ baseOf (notion_finance.plot_category_pie l d).2 = baseOf l
      ∧ baseOf (finance_graphs.get_current_money l).2 = baseOf l
      ∧ baseOf (finance_graphs.plot_total_money l).2 = baseOf l
      ∧ baseOf (finance_graphs.plot_ahorros l).2 = baseOf l)
    ∧ ((notion_finance.get_current_money l₁).1
          = (notion_finance.get_current_money l₂).1
      ∧ notion_finance.plot_total_money l₁ tr ms ws
          = notion_finance.plot_total_money l₂ tr ms ws
      ∧ notion_finance.plot_ahorros l₁ tr ms ws
          = notion_finance.plot_ahorros l₂ tr ms ws
      ∧ (notion_finance.plot_category_pie l₁ d).1
          = (notion_finance.plot_category_pie l₂ d).1
      ∧ notion_finance.total_pages l₁.length
          = notion_finance.total_pages l₂.length
      ∧ (finance_graphs.get_current_money l₁).1
          = (finance_graphs.get_current_money l₂).1
      ∧ (finance_graphs.plot_total_money l₁).1
          = (finance_graphs.plot_total_money l₂).1
      ∧ (finance_graphs.plot_ahorros l₁).1
          = (finance_graphs.plot_ahorros l₂).1) := by
  have hlen : l₁.length = l₂.length := by
    have h2 := congrArg List.length h
    simpa [baseOf] using h2
  refine ⟨⟨baseOf_set_helper_columns l, baseOf_set_general_category l,
    baseOf_set_helper_columns l, baseOf_fg_total_effect l,
    baseOf_fg_ahorros_effect l⟩, ?_, ?_, ?_, ?_, ?_, ?_, ?_, ?_⟩
  · show notion_finance.get_current_money_values (baseOf l₁)
        = notion_finance.get_current_money_values (baseOf l₂)
    rw [h]
  · show notion_finance.total_series (baseOf l₁) tr ms ws
        = notion_finance.total_series (baseOf l₂) tr ms ws
    rw [h]
  · show notion_finance.ahorros_series (baseOf l₁) tr ms ws
        = notion_finance.ahorros_series (baseOf l₂) tr ms ws
    rw [h]
  · show notion_finance.category_pie_values (baseOf l₁) d
        = notion_finance.category_pie_values (baseOf l₂) d
    rw [h]
  · rw [hlen]
  · show finance_graphs.get_current_money_values (baseOf l₁)
        = finance_graphs.get_current_money_values (baseOf l₂)
    rw [h]
  · show finance_graphs.total_points (baseOf l₁)
        = finance_graphs.total_points (baseOf l₂)
    rw [h]
  · show finance_graphs.ahorros_points (baseOf l₁)
        = finance_graphs.ahorros_points (baseOf l₂)
    rw [h]

/-- C7 witness: on a two-row ledger with a window excluding the first row,
the surviving point of the total series still carries the excluded row's
contribution (3 + 4 = 7). -/
theorem c7_cumsum_before_windowing_witness :
    ((10 : Int), (7 : ℚ))
        ∈ notion_finance.plot_total_money twoTxnLedger "Último mes" 5 0
    ∧ ∃ i : Fin (baseOf twoTxnLedger).length,
        ((10 : Int), (7 : ℚ)).1 = ((baseOf twoTxnLedger).get i).date
        ∧ ((10 : Int), (7 : ℚ)).2
            = (((baseOf twoTxnLedger).take (i.1 + 1)).map mask_no_ahorros).sum
        ∧ inWindow "Último mes" 5 0 ((10 : Int), (7 : ℚ)).1 = true := by
  have hser : notion_finance.plot_total_money twoTxnLedger "Último mes" 5 0
      = [((10 : Int), (7 : ℚ))] := by
    simp +decide [notion_finance.plot_total_money, notion_finance.total_series,
      twoTxnLedger, earlyTxn, lateTxn, baseOf, Row.fresh, mask_no_ahorros,
      cumsum, cumsumFrom, inWindow, List.filter_cons]
    norm_num
  have hm : ((10 : Int), (7 : ℚ))
      ∈ notion_finance.plot_total_money twoTxnLedger "Último mes" 5 0 := by
    rw [hser]
    exact List.mem_singleton.mpr rfl
  exact ⟨hm, (c7_cumsum_before_windowing twoTxnLedger "Último mes" 5 0).1
    ((10 : Int), (7 : ℚ)) hm⟩

/-- C8 witness: one dining expense; its only group nets negative, and the
output group amounts sum to the grand total (both 5). -/
theorem c8_group_sums_match_grand_total_witness :
    (∀ g ∈ notion_finance.category_groups (baseOf expenseLedger) "Expense",
        if ("Expense" == "Income") then 0 < g.2 else g.2 < 0)
    ∧ (((notion_finance.plot_category_pie expenseLedger "Expense").1.2).map
          Prod.snd).sum
        = (notion_finance.plot_category_pie expenseLedger "Expense").1.1 := by
  have h : ∀ g ∈ notion_finance.category_groups (baseOf expenseLedger) "Expense",
      if ("Expense" == "Income") then 0 < g.2 else g.2 < 0 := by
    simp +decide [notion_finance.category_groups, groupbySum, expenseLedger,
      expenseTxn, baseOf, Row.fresh, notion_finance.general_category, COMER,
      List.filter_cons]
  exact ⟨h, c8_group_sums_match_grand_total expenseLedger "Expense" h⟩

/-- C10 witness: a fresh savings ledger and the same ledger with a stale
helper column written on it have equal transaction columns, so every
derivation treats them alike. -/
theorem c10_derivations_base_determined_witness :
    baseOf savingsLedger = baseOf savingsLedgerStale
    ∧ ((baseOf (notion_finance.get_current_money savingsLedger).2
          = baseOf savingsLedger
      ∧ baseOf (notion_finance.plot_category_pie savingsLedger "Expense").2
          = baseOf savingsLedger
      ∧ baseOf (finance_graphs.get_current_money savingsLedger).2
          = baseOf savingsLedger
      ∧ baseOf (finance_graphs.plot_total_money savingsLedger).2
          = baseOf savingsLedger
      ∧ baseOf (finance_graphs.plot_ahorros savingsLedger).2
          = baseOf savingsLedger)
    ∧ ((notion_finance.get_current_money savingsLedger).1
          = (notion_finance.get_current_money savingsLedgerStale).1
      ∧ notion_finance.plot_total_money savingsLedger "Todo" 0 0
          = notion_finance.plot_total_money savingsLedgerStale "Todo" 0 0
      ∧ notion_finance.plot_ahorros savingsLedger "Todo" 0 0
          = notion_finance.plot_ahorros savingsLedgerStale "Todo" 0 0
      ∧ (notion_finance.plot_category_pie savingsLedger "Expense").1
          = (notion_finance.plot_category_pie savingsLedgerStale "Expense").1
      ∧ notion_finance.total_pages savingsLedger.length
          = notion_finance.total_pages savingsLedgerStale.length
      ∧ (finance_graphs.get_current_money savingsLedger).1
          = (finance_graphs.get_current_money savingsLedgerStale).1
      ∧ (finance_graphs.plot_total_money savingsLedger).1
          = (finance_graphs.plot_total_money savingsLedgerStale).1
      ∧ (finance_graphs.plot_ahorros savingsLedger).1
          = (finance_graphs.plot_ahorros savingsLedgerStale).1)) := by
  have h : baseOf savingsLedger = baseOf savingsLedgerStale := rfl
  exact ⟨h, c10_derivations_base_determined savingsLedger savingsLedger
    savingsLedgerStale "Expense" "Todo" 0 0 h⟩
